import Mathlib

/-
Verification of the conflict-detection and slot-suggestion engine of the
meeting_tool repository (apps/meetings/services.py), as a shallow embedding.

Time model: an aware Python datetime is a pair of an absolute instant
(seconds since an epoch chosen to fall at 00:00 on a Monday, UTC) and the
fixed utcoffset of its tzinfo.  The zones the application uses
(Africa/Nairobi and the other IANA names stored on users) are modelled as
fixed offsets; `weekday()`, `date()`, `time()`, `minute` and `replace`
all act on the civil reading `abs + off`, while comparisons between aware
datetimes (and the database filters on DateTimeField columns) compare the
absolute instants.  Sub-second precision below one second (microseconds)
is not modelled.
-/

namespace MeetingTool

/-- An aware datetime: absolute seconds since the epoch plus the utcoffset
(in seconds) of the timezone it is represented in. -/
structure DT where
  abs : Int
  off : Int
deriving DecidableEq

/-- The civil (local-to-its-tzinfo) reading of an aware datetime, in seconds. -/
def DT.civil (d : DT) : Int := d.abs + d.off

/-- `datetime.date()` as an ordinal day number (day 0 is a Monday). -/
def DT.dateOf (d : DT) : Int := d.civil / 86400

/-- `datetime.time()` as seconds within the civil day. -/
def DT.timeOf (d : DT) : Int := d.civil % 86400

/-- `datetime.weekday()`: 0 = Monday .. 6 = Sunday, of the civil date. -/
def DT.weekday (d : DT) : Int := d.dateOf % 7

/-- The `minute` field of the civil reading. -/
def DT.minute (d : DT) : Int := (d.civil / 60) % 60

/-- The `second` field of the civil reading. -/
def DT.second (d : DT) : Int := d.civil % 60

/-- The `hour` field of the civil reading. -/
def DT.hour (d : DT) : Int := (d.civil / 3600) % 24

/-- `datetime.astimezone(tz)`: same instant, new representation offset. -/
def DT.astimezone (d : DT) (tz : Int) : DT := ⟨d.abs, tz⟩

/-- Adding a `timedelta` of `s` seconds (absolute arithmetic, as for
fixed-offset aware datetimes). -/
def DT.addSeconds (d : DT) (s : Int) : DT := ⟨d.abs + s, d.off⟩

/-- `datetime.replace(minute=m, second=0, microsecond=0)`. -/
def DT.replaceMinSec0 (d : DT) (m : Int) : DT :=
  ⟨d.abs - (d.minute * 60 + d.second) + m * 60, d.off⟩

/-- `datetime.replace(hour=h, minute=m)` (seconds are kept). -/
def DT.replaceHM (d : DT) (h m : Int) : DT :=
  ⟨d.abs - (d.hour * 3600 + d.minute * 60) + h * 3600 + m * 60, d.off⟩

/-- `tz.localize(datetime.combine(date, t))`: the instant whose civil
reading in zone `tz` is time `t` of ordinal day `date`. -/
def localize (tz : Int) (date : Int) (t : Int) : DT :=
  ⟨date * 86400 + t - tz, tz⟩

/-- Meeting.Status (apps/meetings/models.py). -/
inductive MeetingStatus
  | scheduled
  | inProgress
  | completed
  | cancelled
deriving DecidableEq

/-- The fields of a Meeting row that conflict detection reads. -/
structure Meeting where
  id : Nat
  organizerId : Nat
  participantIds : List Nat
  startTime : Int
  endTime : Int
  status : MeetingStatus
  isDeleted : Bool
deriving DecidableEq

/-- The fields of a BlockedTime row that conflict detection reads. -/
structure BlockedTime where
  id : Nat
  userId : Nat
  startDatetime : Int
  endDatetime : Int
deriving DecidableEq

/-- The fields of an Availability row that availability checking reads.
`startTime`/`endTime` are local times as seconds within the day;
`effectiveFrom`/`effectiveUntil` are ordinal dates. -/
structure Availability where
  userId : Nat
  dayOfWeek : Int
  startTime : Int
  endTime : Int
  effectiveFrom : Option Int
  effectiveUntil : Option Int
  isActive : Bool
deriving DecidableEq

/-- The fields of a User row the engine reads: identity, the stored
timezone attribute (as a fixed utcoffset in seconds), and the display
name used in participant conflict entries. -/
structure User where
  id : Nat
  timezone : Int
  fullName : String
deriving DecidableEq

/-- A database snapshot: the tables the engine queries, plus
`timezone.now().date()` (`today`, an ordinal date) used by the
effective-range filter on availability rows. -/
structure Snapshot where
  users : List User
  meetings : List Meeting
  blockedTimes : List BlockedTime
  availabilities : List Availability
  today : Int
deriving DecidableEq

/-- ConflictDetector.check_conflicts: meetings where the user is organizer
or participant, not soft-deleted, status in scheduled/in_progress,
overlapping the window (start < other.end and end > other.start), minus
the excluded meeting id.  `.distinct()` is the identity on the row list. -/
def check_conflicts (snap : Snapshot) (user : User) (start_time end_time : DT)
    (exclude_meeting_id : Option Nat) : List Meeting :=
  snap.meetings.filter (fun m =>
    (m.organizerId == user.id || m.participantIds.contains user.id) &&
    m.isDeleted == false &&
    (m.status == MeetingStatus.scheduled || m.status == MeetingStatus.inProgress) &&
    (decide (m.startTime < end_time.abs) && decide (m.endTime > start_time.abs)) &&
    (match exclude_meeting_id with
     | some mid => m.id != mid
     | none => true))

/-- ConflictDetector.check_blocked_times: the user's blocked times with
start_datetime < end_time and end_datetime > start_time. -/
def check_blocked_times (snap : Snapshot) (user : User)
    (start_time end_time : DT) : List BlockedTime :=
  snap.blockedTimes.filter (fun b =>
    b.userId == user.id &&
    decide (b.startDatetime < end_time.abs) &&
    decide (b.endDatetime > start_time.abs))

/-- The availability query inside _is_time_within_availability: the user's
rows for the given weekday with is_active true and an effective date range
containing today. -/
def liveAvailabilities (snap : Snapshot) (user : User) (day_of_week : Int) :
    List Availability :=
  snap.availabilities.filter (fun a =>
    a.userId == user.id &&
    a.dayOfWeek == day_of_week &&
    a.isActive &&
    (match a.effectiveFrom with
     | none => true
     | some d => decide (d ≤ snap.today)) &&
    (match a.effectiveUntil with
     | none => true
     | some d => decide (snap.today ≤ d)))

/-- ConflictDetector._is_time_within_availability: with no live rows for
the weekday, fall back to default business hours 08:00-18:00
(28800-64800 seconds); otherwise the range must fit inside some row. -/
def is_time_within_availability (snap : Snapshot) (user : User)
    (day_of_week : Int) (start_time end_time : Int) : Bool :=
  let availabilities := liveAvailabilities snap user day_of_week
  if availabilities.isEmpty then
    decide (28800 ≤ start_time) && decide (end_time ≤ 64800)
  else
    availabilities.any (fun avail =>
      decide (avail.startTime ≤ start_time) && decide (end_time ≤ avail.endTime))

/-- ConflictDetector._is_day_available: the sub-range of the request that
falls on `date` is its start/end time on the first/last day and
00:00/23:59 otherwise. -/
def is_day_available (snap : Snapshot) (user : User) (date : Int)
    (start_dt end_dt : DT) : Bool :=
  let day_of_week := date % 7
  let day_start : Int := if date == start_dt.dateOf then start_dt.timeOf else 0
  let day_end : Int := if date == end_dt.dateOf then end_dt.timeOf else 86340
  is_time_within_availability snap user day_of_week day_start day_end

/-- The multi-day while-loop of check_availability_window: every date from
`current_date` up to the end date must pass _is_day_available.  The fuel
passed by the caller covers the whole date span, so running out of fuel
coincides with the loop condition turning false. -/
def availLoop (snap : Snapshot) (user : User) : Nat → Int → DT → DT → Bool
  | 0, _, _, _ => true
  | fuel + 1, current_date, local_start, local_end =>
    if decide (current_date ≤ local_end.dateOf) then
      if is_day_available snap user current_date local_start local_end then
        availLoop snap user fuel (current_date + 1) local_start local_end
      else false
    else true

/-- ConflictDetector.check_availability_window.  Note: the source computes
`day_of_week` from the input datetime before converting to the detector's
zone, then compares the converted local times against that weekday's
windows. -/
def check_availability_window (snap : Snapshot) (tz : Int) (user : User)
    (start_time end_time : DT) : Bool :=
  let day_of_week := start_time.weekday
  let local_start := start_time.astimezone tz
  let local_end := end_time.astimezone tz
  if local_start.dateOf != local_end.dateOf then
    availLoop snap user (local_end.dateOf - local_start.dateOf + 1).toNat
      local_start.dateOf local_start local_end
  else
    is_time_within_availability snap user day_of_week
      local_start.timeOf local_end.timeOf

/-- The dict returned by ConflictDetector.get_all_conflicts. -/
structure ConflictReport where
  conflicting_meetings : List Meeting
  blocked_times : List BlockedTime
  within_availability : Bool
  has_conflicts : Bool
deriving DecidableEq

/-- ConflictDetector.get_all_conflicts: the comprehensive report.
`has_conflicts` is `bool(check_conflicts(...) or check_blocked_times(...))`,
i.e. true iff either recomputed list is non-empty. -/
def get_all_conflicts (snap : Snapshot) (tz : Int) (user : User)
    (start_time end_time : DT) (exclude_meeting_id : Option Nat) : ConflictReport :=
  { conflicting_meetings :=
      check_conflicts snap user start_time end_time exclude_meeting_id
    blocked_times := check_blocked_times snap user start_time end_time
    within_availability := check_availability_window snap tz user start_time end_time
    has_conflicts :=
      !(check_conflicts snap user start_time end_time exclude_meeting_id).isEmpty ||
      !(check_blocked_times snap user start_time end_time).isEmpty }

/-- The constructor state of SlotSuggester: user set, duration (minutes),
and the timezone for business-hour interpretation.  Business hours are the
fixed 08:00-18:00 (28800-64800 seconds local). -/
structure SlotSuggester where
  users : List User
  duration_minutes : Nat
  tz : Int
deriving DecidableEq

/-- `self.duration` (a timedelta), in seconds. -/
def SlotSuggester.duration (s : SlotSuggester) : Int := (s.duration_minutes : Int) * 60

/-- A dict produced by _get_available_slots_for_day (the `time_display`
string is presentational and not modelled). -/
structure SuggestedSlot where
  start_time : DT
  end_time : DT
  duration_minutes : Int
  all_available : Bool
  date : Int
deriving DecidableEq

/-- A dict produced by find_next_available_slot (it has no `date` key). -/
structure NextSlot where
  start_time : DT
  end_time : DT
  duration_minutes : Int
  all_available : Bool
deriving DecidableEq

/-- SlotSuggester._check_slot_for_all_users: the users for whom the slot
has conflicts or is outside availability, and whether that list is empty.
Each user's check builds a ConflictDetector with the suggester's own
timezone. -/
def check_slot_for_all_users (snap : Snapshot) (s : SlotSuggester)
    (start_time end_time : DT) : Bool × List User :=
  let unavailable_users := s.users.filter (fun user =>
    let conflicts := get_all_conflicts snap s.tz user start_time end_time none
    conflicts.has_conflicts || !conflicts.within_availability)
  (unavailable_users.length == 0, unavailable_users)

/-- The slot-generation while-loop of _get_available_slots_for_day:
while current_time + duration <= end_time, append the slot when every
user is free, and advance 30 minutes.  The caller's fuel covers the whole
business day, so fuel exhaustion coincides with the loop condition
turning false. -/
def slotLoop (snap : Snapshot) (s : SlotSuggester) (date : Int) :
    Nat → DT → DT → List SuggestedSlot → List SuggestedSlot
  | 0, _, _, slots => slots
  | fuel + 1, current_time, end_time, slots =>
    if decide ((current_time.addSeconds s.duration).abs ≤ end_time.abs) then
      let slot_end := current_time.addSeconds s.duration
      let slots :=
        if (check_slot_for_all_users snap s current_time slot_end).1 then
          slots ++ [{ start_time := current_time
                      end_time := slot_end
                      duration_minutes := (s.duration_minutes : Int)
                      all_available := true
                      date := date }]
        else slots
      slotLoop snap s date fuel (current_time.addSeconds 1800) end_time slots
    else slots

/-- SlotSuggester._get_available_slots_for_day: candidate slots run from
08:00 to 18:00 local in 30-minute steps; the 10-hour span admits at most
21 loop iterations, so fuel 21 is exact. -/
def get_available_slots_for_day (snap : Snapshot) (s : SlotSuggester)
    (date : Int) : List SuggestedSlot :=
  let current_time := localize s.tz date 28800
  let end_time := localize s.tz date 64800
  slotLoop snap s date 21 current_time end_time []

/-- The date-scanning while-loop of suggest_slots: while the date is
within the horizon and fewer than num_suggestions slots are collected,
append the day's slots unless the date is a weekend, then step one day.
The caller's fuel covers the whole horizon. -/
def suggestLoop (snap : Snapshot) (s : SlotSuggester)
    (end_date : Int) (num_suggestions : Nat) :
    Nat → Int → List SuggestedSlot → List SuggestedSlot
  | 0, _, suggestions => suggestions
  | fuel + 1, current_date, suggestions =>
    if decide (current_date ≤ end_date) && decide (suggestions.length < num_suggestions) then
      let suggestions :=
        if decide (current_date % 7 < 5) then
          suggestions ++ get_available_slots_for_day snap s current_date
        else suggestions
      suggestLoop snap s end_date num_suggestions fuel (current_date + 1) suggestions
    else suggestions

/-- SlotSuggester.suggest_slots (defaults in the source:
num_suggestions = 5, days_to_search = 7).  The scan runs from
preferred_date through preferred_date + days_to_search inclusive and the
result is truncated to num_suggestions. -/
def suggest_slots (snap : Snapshot) (s : SlotSuggester) (preferred_date : Int)
    (num_suggestions : Nat) (days_to_search : Nat) : List SuggestedSlot :=
  (suggestLoop snap s (preferred_date + (days_to_search : Int)) num_suggestions
    (days_to_search + 1) preferred_date []).take num_suggestions

/-- The rounding step at the top of the find_next_available_slot loop:
when the minute is not a multiple of 30, replace it by the next multiple
(mod 60) with seconds and microseconds zeroed, carrying one hour when the
minute was 30 or more; otherwise leave the datetime untouched (seconds
included). -/
def round30 (current_time : DT) : DT :=
  let minutes := current_time.minute
  if minutes % 30 != 0 then
    let r := current_time.replaceMinSec0 (((minutes / 30 + 1) * 30) % 60)
    if decide (minutes ≥ 30) then r.addSeconds 3600 else r
  else current_time

/-- The scanning while-loop of find_next_available_slot: round the minute
up to a multiple of 30 when it is not one already (zeroing seconds), snap
into business hours and off weekends, test the slot, else advance 30
minutes.  Fuel exhaustion yields none, which also soundly models the
inputs on which the source loop would not terminate. -/
def findLoop (snap : Snapshot) (s : SlotSuggester) (end_search : Int) :
    Nat → DT → Option NextSlot
  | 0, _ => none
  | fuel + 1, current_time =>
    if decide (current_time.abs < end_search) then
      let ct1 := round30 current_time
      let rest := fun (current_time : DT) =>
        if decide (current_time.weekday ≥ 5) then
          let d := (7 - current_time.weekday) % 7
          let days_until_monday := if d == 0 then 7 else d
          findLoop snap s end_search fuel
            (((current_time.addSeconds (days_until_monday * 86400)).replaceHM 8 0))
        else
          let slot_end := current_time.addSeconds s.duration
          if (check_slot_for_all_users snap s current_time slot_end).1 then
            some { start_time := current_time
                   end_time := slot_end
                   duration_minutes := (s.duration_minutes : Int)
                   all_available := true }
          else
            findLoop snap s end_search fuel (current_time.addSeconds 1800)
      let local_time := ct1.astimezone s.tz
      if decide (local_time.timeOf < 28800) then
        rest (ct1.replaceHM 8 0)
      else if decide (local_time.timeOf ≥ 64800) then
        findLoop snap s end_search fuel ((ct1.addSeconds 86400).replaceHM 8 0)
      else
        rest ct1
    else none

/-- SlotSuggester.find_next_available_slot (default max_days = 14).  The
fuel bound comfortably covers the horizon of 48 slots per day. -/
def find_next_available_slot (snap : Snapshot) (s : SlotSuggester)
    (after_time : DT) (max_days : Nat) : Option NextSlot :=
  findLoop snap s (after_time.abs + (max_days : Int) * 86400)
    (max_days * 48 + 16) after_time

/-- The meeting_data dict accepted by check_meeting_conflicts. -/
structure MeetingData where
  start_time : DT
  end_time : Option DT
  duration_minutes : Option Nat
  participants : List Nat
  exclude_meeting_id : Option Nat
deriving DecidableEq

/-- One entry of the participant_conflicts map (keyed by participant id,
carrying the display name and report). -/
structure ParticipantConflict where
  participantId : Nat
  userName : String
  conflicts : ConflictReport
deriving DecidableEq

/-- The dict returned by check_meeting_conflicts. -/
structure AggregateReport where
  organizer_conflicts : ConflictReport
  participant_conflicts : List ParticipantConflict
  has_any_conflicts : Bool
  suggested_alternatives : List SuggestedSlot
deriving DecidableEq

/-- `User.objects.get(id=...)` with DoesNotExist mapped to none. -/
def findUser (snap : Snapshot) (pid : Nat) : Option User :=
  snap.users.find? (fun u => u.id == pid)

/-- check_meeting_conflicts (module-level convenience function): organizer
report with the organizer's stored timezone, per-participant reports with
each participant's stored timezone (unknown ids skipped, only conflicted
participants kept), and, when any conflict exists, suggestions from a
SlotSuggester over organizer plus resolvable participants in the
organizer's timezone, with the source defaults num_suggestions = 5 and
days_to_search = 7, anchored at the candidate start's date. -/
def check_meeting_conflicts (snap : Snapshot) (meeting_data : MeetingData)
    (user : User) : AggregateReport :=
  let start_time := meeting_data.start_time
  let end_time :=
    match meeting_data.end_time with
    | some e => e
    | none => start_time.addSeconds
        (((meeting_data.duration_minutes.getD 30) : Int) * 60)
  let exclude_id := meeting_data.exclude_meeting_id
  let organizer_conflicts :=
    get_all_conflicts snap user.timezone user start_time end_time exclude_id
  let participant_conflicts :=
    meeting_data.participants.filterMap (fun pid =>
      match findUser snap pid with
      | none => none
      | some participant =>
        let conflicts :=
          get_all_conflicts snap participant.timezone participant
            start_time end_time exclude_id
        if conflicts.has_conflicts then
          some { participantId := participant.id
                 userName := participant.fullName
                 conflicts := conflicts }
        else none)
  let suggestions :=
    if organizer_conflicts.has_conflicts || !participant_conflicts.isEmpty then
      let all_users :=
        user :: snap.users.filter (fun u => meeting_data.participants.contains u.id)
      let suggester : SlotSuggester :=
        { users := all_users
          duration_minutes := meeting_data.duration_minutes.getD 30
          tz := user.timezone }
      suggest_slots snap suggester start_time.dateOf 5 7
    else []
  { organizer_conflicts := organizer_conflicts
    participant_conflicts := participant_conflicts
    has_any_conflicts :=
      organizer_conflicts.has_conflicts || !participant_conflicts.isEmpty
    suggested_alternatives := suggestions }

/-
Concrete data used by counterexamples and witnesses.  Ordinal day 0 is a
Monday; all concrete zones are Africa/Nairobi (+03:00, offset 10800 s).
-/

/-- A user in the Nairobi zone. -/
def userA : User := ⟨1, 10800, "A"⟩

/-- A scheduled meeting of userA, 10:00-10:30 local on day 0 (a Monday):
absolute seconds 25200-27000. -/
def meetA : Meeting := ⟨1, 1, [], 25200, 27000, MeetingStatus.scheduled, false⟩

/-- Snapshot for the C3 counterexample: only userA and meetA. -/
def snapC3 : Snapshot := ⟨[userA], [meetA], [], [], 0⟩

/-- Candidate meeting data for the C3 counterexample: start 10:00 local on
day 0, no explicit end or duration (defaults to 30 minutes), no
participants.  It overlaps meetA exactly. -/
def mdC3 : MeetingData := ⟨⟨25200, 10800⟩, none, none, [], none⟩

/-- A user whose only availability window is Tuesday 00:00-02:00. -/
def userC7 : User := ⟨1, 10800, "B"⟩

/-- Snapshot for C7: userC7 with the single Tuesday window, nothing else. -/
def snapC7 : Snapshot := ⟨[userC7], [], [], [⟨1, 1, 0, 7200, none, none, true⟩], 0⟩

/-- Monday 22:00 UTC (= Tuesday 01:00 Nairobi), represented in UTC. -/
def stC7 : DT := ⟨79200, 0⟩

/-- Monday 22:30 UTC (= Tuesday 01:30 Nairobi), represented in UTC. -/
def enC7 : DT := ⟨81000, 0⟩

/-- A meeting of userA spanning 08:20-12:00 UTC on day 0
(absolute 30000-43200). -/
def meetC8 : Meeting := ⟨2, 1, [], 30000, 43200, MeetingStatus.scheduled, false⟩

/-- Snapshot for C8: userA with meetC8. -/
def snapC8 : Snapshot := ⟨[userA], [meetC8], [], [], 0⟩

/-- 11:00 UTC on day 0: the start of an invalid window that ends at 10:00. -/
def stC8 : DT := ⟨39600, 0⟩

/-- 10:00 UTC on day 0: the end of the invalid window (end < start). -/
def enC8 : DT := ⟨36000, 0⟩

/-- A blocked time of userA spanning 09:00-12:30 UTC on day 0. -/
def blockC8 : BlockedTime := ⟨7, 1, 32400, 45000⟩

/-- Suggester over no users at all (every slot trivially qualifies). -/
def sC9 : SlotSuggester := ⟨[], 30, 10800⟩

/-- Empty snapshot. -/
def snapEmpty : Snapshot := ⟨[], [], [], [], 0⟩

/-- Monday 10:30:45 local Nairobi (absolute 27045 s): its minute is a
multiple of 30 but its seconds are not zero. -/
def afterC9 : DT := ⟨27045, 10800⟩

/-- The slot find_next_available_slot returns for afterC9: it starts at
10:30:45 local, 45 seconds past the half-hour boundary. -/
def slotC9 : NextSlot := ⟨⟨27045, 10800⟩, ⟨28845, 10800⟩, 30, true⟩

/-- Suggester over just userA, 30-minute slots, Nairobi. -/
def sW : SlotSuggester := ⟨[userA], 30, 10800⟩

/-- Snapshot for the C5/C6 witnesses: userA alone, no rows. -/
def snapW : Snapshot := ⟨[userA], [], [], [], 0⟩

/-- The first slot suggested for snapW on day 0: 08:00-08:30 local. -/
def slotW : SuggestedSlot := ⟨⟨18000, 10800⟩, ⟨19800, 10800⟩, 30, true, 0⟩

/-- C1: for every person and candidate window, the report returned by
get_all_conflicts has has_conflicts = true iff the list of conflicting
meetings or the list of conflicting blocked times is non-empty; the
within_availability flag never by itself makes has_conflicts true. -/
theorem C1_has_conflicts_iff_nonempty (snap : Snapshot) (tz : Int) (user : User)
    (st en : DT) (ex : Option Nat) :
    (get_all_conflicts snap tz user st en ex).has_conflicts = true ↔
      ((get_all_conflicts snap tz user st en ex).conflicting_meetings ≠ [] ∨
       (get_all_conflicts snap tz user st en ex).blocked_times ≠ []) := by
  simp [get_all_conflicts]

/-- C2: an existing meeting or blocked time ending exactly at the instant
at which the candidate window starts is never reported as overlapping:
the overlap test requires start < other.end and end > other.start. -/
theorem C2_boundary_touch_no_conflict (snap : Snapshot) (user : User)
    (st en : DT) (ex : Option Nat) (m : Meeting) (b : BlockedTime)
    (hm : m.endTime = st.abs) (hb : b.endDatetime = st.abs) :
    m ∉ check_conflicts snap user st en ex ∧
      b ∉ check_blocked_times snap user st en := by
  constructor
  · intro hmem
    simp only [check_conflicts, List.mem_filter, Bool.and_eq_true,
      decide_eq_true_eq] at hmem
    omega
  · intro hmem
    simp only [check_blocked_times, List.mem_filter, Bool.and_eq_true,
      decide_eq_true_eq] at hmem
    omega

/-- Witness for C2 at a concrete input: meetA ends at absolute 27000 and a
candidate starting there does not list it (nor a blocked time ending
there). -/
theorem C2_boundary_touch_no_conflict_witness :
    meetA ∉ check_conflicts snapC3 userA ⟨27000, 10800⟩ ⟨28800, 10800⟩ none :=
  (C2_boundary_touch_no_conflict snapC3 userA ⟨27000, 10800⟩ ⟨28800, 10800⟩ none
    meetA ⟨9, 1, 26000, 27000⟩ (by decide) (by decide)).1

/-- Counterexample to C3: with one conflicting meeting and plenty of free
slots, check_meeting_conflicts returns 5 suggested alternatives, not at
most 3 (suggest_slots is invoked with its default num_suggestions = 5). -/
theorem C3_counterexample_five_suggestions :
    (check_meeting_conflicts snapC3 mdC3 userA).has_any_conflicts = true ∧
      (check_meeting_conflicts snapC3 mdC3 userA).suggested_alternatives.length = 5 := by
  constructor
  · decide
  · decide

/-- C3 amended: whenever check_meeting_conflicts finds any conflict, the
suggested_alternatives list contains at most 5 suggested slots (the
default num_suggestions of suggest_slots), not at most 3. -/
theorem C3_amended_at_most_five_suggestions (snap : Snapshot)
    (md : MeetingData) (user : User) :
    (check_meeting_conflicts snap md user).suggested_alternatives.length ≤ 5 := by
  unfold check_meeting_conflicts
  dsimp only
  split
  · simp [suggest_slots]
  · simp

/-- C4: when a person has no live availability window (is_active and
effective range containing today) for the weekday the check selects, a
single-local-day window is within availability iff its local start is at
or after 08:00 and its local end at or before 18:00. -/
theorem C4_default_business_hours_fallback (snap : Snapshot) (tz : Int)
    (user : User) (st en : DT)
    (hday : (st.astimezone tz).dateOf = (en.astimezone tz).dateOf)
    (hlive : liveAvailabilities snap user st.weekday = []) :
    (check_availability_window snap tz user st en = true ↔
      (28800 ≤ (st.astimezone tz).timeOf ∧ (en.astimezone tz).timeOf ≤ 64800)) := by
  unfold check_availability_window
  dsimp only
  rw [hday]
  simp only [bne_self_eq_false, Bool.false_eq_true, if_false]
  unfold is_time_within_availability
  rw [hlive]
  simp

/-- Witness for C4: userA (no availability rows at all) is within
availability for 08:00-08:30 local on a Monday. -/
theorem C4_default_business_hours_fallback_witness :
    check_availability_window snapW 10800 userA ⟨18000, 10800⟩ ⟨19800, 10800⟩ = true :=
  (C4_default_business_hours_fallback snapW 10800 userA ⟨18000, 10800⟩ ⟨19800, 10800⟩
    (by decide) (by decide)).mpr (by decide)

/-- The boolean component of _check_slot_for_all_users is true iff every
user's report shows no conflicts and within availability. -/
theorem check_slot_for_all_users_fst_iff (snap : Snapshot) (s : SlotSuggester)
    (st en : DT) :
    (check_slot_for_all_users snap s st en).1 = true ↔
      ∀ u ∈ s.users,
        (get_all_conflicts snap s.tz u st en none).has_conflicts = false ∧
        (get_all_conflicts snap s.tz u st en none).within_availability = true := by
  simp only [check_slot_for_all_users, beq_iff_eq, List.length_eq_zero,
    List.filter_eq_nil_iff, Bool.or_eq_true, Bool.not_eq_true', not_or,
    Bool.not_eq_true, Bool.not_eq_false]

/-- Every slot the day-scanning loop emits beyond its accumulator carries
the scanned date, ends one duration after its start, and passed the
all-users check at exactly its own window. -/
theorem slotLoop_mem (snap : Snapshot) (s : SlotSuggester) (date : Int) :
    ∀ (fuel : Nat) (ct en : DT) (acc : List SuggestedSlot) (slot : SuggestedSlot),
      slot ∈ slotLoop snap s date fuel ct en acc →
      slot ∈ acc ∨
        (slot.date = date ∧ slot.end_time = slot.start_time.addSeconds s.duration ∧
          (check_slot_for_all_users snap s slot.start_time slot.end_time).1 = true) := by
  intro fuel
  induction fuel with
  | zero =>
    intro ct en acc slot h
    exact Or.inl h
  | succ n ih =>
    intro ct en acc slot h
    rw [slotLoop] at h
    split at h
    · dsimp only at h
      rcases ih _ _ _ _ h with hacc | hnew
      · split at hacc
        · rcases List.mem_append.mp hacc with hl | hr
          · exact Or.inl hl
          · rcases List.mem_singleton.mp hr with rfl
            rename_i hcheck
            exact Or.inr ⟨rfl, rfl, hcheck⟩
        · exact Or.inl hacc
      · exact Or.inr hnew
    · exact Or.inl h

/-- Every slot the date-scanning loop emits beyond its accumulator has a
weekday-0..4 date, ends one duration after its start, and passed the
all-users check at its own window. -/
theorem suggestLoop_mem (snap : Snapshot) (s : SlotSuggester)
    (end_date : Int) (num : Nat) :
    ∀ (fuel : Nat) (cd : Int) (acc : List SuggestedSlot) (slot : SuggestedSlot),
      slot ∈ suggestLoop snap s end_date num fuel cd acc →
      slot ∈ acc ∨
        (slot.date % 7 < 5 ∧ slot.end_time = slot.start_time.addSeconds s.duration ∧
          (check_slot_for_all_users snap s slot.start_time slot.end_time).1 = true) := by
  intro fuel
  induction fuel with
  | zero =>
    intro cd acc slot h
    exact Or.inl h
  | succ n ih =>
    intro cd acc slot h
    rw [suggestLoop] at h
    split at h
    · dsimp only at h
      rcases ih _ _ _ h with hacc | hnew
      · split at hacc
        · rcases List.mem_append.mp hacc with hl | hr
          · exact Or.inl hl
          · rcases slotLoop_mem snap s cd _ _ _ _ _ hr with hnil | hnew
            · exact absurd hnil (List.not_mem_nil slot)
            · rename_i hweek
              refine Or.inr ⟨?_, hnew.2⟩
              rw [hnew.1]
              exact of_decide_eq_true hweek
        · exact Or.inl hacc
      · exact Or.inr hnew
    · exact Or.inl h

/-- Every slot returned by suggest_slots has a weekday-0..4 date, ends one
duration after its start, and passed the all-users check at its window. -/
theorem suggest_slots_mem (snap : Snapshot) (s : SlotSuggester)
    (pd : Int) (num days : Nat) (slot : SuggestedSlot)
    (h : slot ∈ suggest_slots snap s pd num days) :
    slot.date % 7 < 5 ∧ slot.end_time = slot.start_time.addSeconds s.duration ∧
      (check_slot_for_all_users snap s slot.start_time slot.end_time).1 = true := by
  unfold suggest_slots at h
  have h' := List.take_subset num _ h
  rcases suggestLoop_mem snap s _ num _ _ _ _ h' with hnil | hnew
  · exact absurd hnil (List.not_mem_nil slot)
  · exact hnew

/-- C5: no slot returned by suggest_slots has a date falling on Saturday
(weekday 5) or Sunday (weekday 6), whatever the people, preferred date,
suggestion count and horizon. -/
theorem C5_no_weekend_suggestions (snap : Snapshot) (s : SlotSuggester)
    (pd : Int) (num days : Nat) (slot : SuggestedSlot)
    (h : slot ∈ suggest_slots snap s pd num days) :
    slot.date % 7 ≠ 5 ∧ slot.date % 7 ≠ 6 := by
  have h5 := (suggest_slots_mem snap s pd num days slot h).1
  omega

/-- Witness for C5: the 08:00 slot of day 0 is suggested for userA and its
date is neither Saturday nor Sunday. -/
theorem C5_no_weekend_suggestions_witness :
    slotW.date % 7 ≠ 5 ∧ slotW.date % 7 ≠ 6 :=
  C5_no_weekend_suggestions snapW sW 0 5 0 slotW (by decide)

/-- replace(minute=m, second=0, ...) leaves a datetime whose minute field
is m, for m in the valid range. -/
theorem DT.minute_replaceMinSec0 (d : DT) {m : Int} (h0 : 0 ≤ m) (h1 : m < 60) :
    (d.replaceMinSec0 m).minute = m := by
  simp only [DT.replaceMinSec0, DT.minute, DT.second, DT.civil]
  omega

/-- Adding exactly one hour does not change the minute field. -/
theorem DT.minute_addSeconds_hour (d : DT) :
    (d.addSeconds 3600).minute = d.minute := by
  simp only [DT.addSeconds, DT.minute, DT.civil]
  omega

/-- replace(hour=h, minute=m) leaves a datetime whose minute field is m,
for m in the valid range. -/
theorem DT.minute_replaceHM (d : DT) {h m : Int} (h0 : 0 ≤ m) (h1 : m < 60) :
    (d.replaceHM h m).minute = m := by
  simp only [DT.replaceHM, DT.minute, DT.hour, DT.civil]
  omega

/-- The rounding step always leaves a minute that is a multiple of 30:
either it sets the minute to one, or the minute already was one. -/
theorem round30_minute (d : DT) : (round30 d).minute % 30 = 0 := by
  unfold round30
  dsimp only
  split
  · have h0 : (0 : Int) ≤ ((d.minute / 30 + 1) * 30) % 60 :=
      Int.emod_nonneg _ (by omega)
    have h1 : ((d.minute / 30 + 1) * 30) % 60 < 60 :=
      Int.emod_lt_of_pos _ (by omega)
    split
    · rw [DT.minute_addSeconds_hour, DT.minute_replaceMinSec0 _ h0 h1]
      omega
    · rw [DT.minute_replaceMinSec0 _ h0 h1]
      omega
  · rename_i hne
    simp only [bne_iff_ne, ne_eq, not_not] at hne
    exact hne

/-- Any slot the next-slot scanning loop returns ends one duration after
its start, passed the all-users check at exactly its own window, and
starts at a minute that is a multiple of 30. -/
theorem findLoop_some (snap : Snapshot) (s : SlotSuggester) (end_search : Int) :
    ∀ (fuel : Nat) (ct : DT) (slot : NextSlot),
      findLoop snap s end_search fuel ct = some slot →
      slot.end_time = slot.start_time.addSeconds s.duration ∧
        (check_slot_for_all_users snap s slot.start_time slot.end_time).1 = true ∧
        slot.start_time.minute % 30 = 0 := by
  intro fuel
  induction fuel with
  | zero =>
    intro ct slot h
    exact absurd h (by simp [findLoop])
  | succ n ih =>
    intro ct slot h
    rw [findLoop] at h
    split at h
    case isFalse => exact absurd h (by simp)
    case isTrue =>
      dsimp only at h
      split at h
      · -- before business hours: ct2 = rounded.replaceHM 8 0
        split at h
        · exact ih _ _ h
        · split at h
          · rename_i hcheck
            rcases Option.some.inj h with rfl
            refine ⟨rfl, hcheck, ?_⟩
            rw [DT.minute_replaceHM _ (by omega) (by omega)]
            decide
          · exact ih _ _ h
      · split at h
        · -- at or after business end: recursive call on the next day
          exact ih _ _ h
        · -- inside business hours: ct2 = rounded
          split at h
          · exact ih _ _ h
          · split at h
            · rename_i hcheck
              rcases Option.some.inj h with rfl
              exact ⟨rfl, hcheck, round30_minute ct⟩
            · exact ih _ _ h

/-- C6: every slot returned by suggest_slots or find_next_available_slot,
re-checked with get_all_conflicts over the same snapshot (with the
suggester's timezone, as the suggester itself checks), shows
has_conflicts = false and within_availability = true for every person in
the set. -/
theorem C6_suggestion_soundness (snap : Snapshot) (s : SlotSuggester) :
    (∀ (pd : Int) (num days : Nat) (slot : SuggestedSlot),
        slot ∈ suggest_slots snap s pd num days →
        ∀ u ∈ s.users,
          (get_all_conflicts snap s.tz u slot.start_time slot.end_time none).has_conflicts = false ∧
          (get_all_conflicts snap s.tz u slot.start_time slot.end_time none).within_availability = true) ∧
    (∀ (after : DT) (maxd : Nat) (slot : NextSlot),
        find_next_available_slot snap s after maxd = some slot →
        ∀ u ∈ s.users,
          (get_all_conflicts snap s.tz u slot.start_time slot.end_time none).has_conflicts = false ∧
          (get_all_conflicts snap s.tz u slot.start_time slot.end_time none).within_availability = true) := by
  constructor
  · intro pd num days slot h u hu
    have h3 := (suggest_slots_mem snap s pd num days slot h).2.2
    exact (check_slot_for_all_users_fst_iff snap s _ _).mp h3 u hu
  · intro after maxd slot h u hu
    unfold find_next_available_slot at h
    have h3 := (findLoop_some snap s _ _ _ _ h).2.1
    exact (check_slot_for_all_users_fst_iff snap s _ _).mp h3 u hu

/-- Witness for C6: the suggested 08:00-08:30 slot of day 0 re-checks
clean for userA. -/
theorem C6_suggestion_soundness_witness :
    (get_all_conflicts snapW sW.tz userA slotW.start_time slotW.end_time none).has_conflicts = false ∧
      (get_all_conflicts snapW sW.tz userA slotW.start_time slotW.end_time none).within_availability = true :=
  (C6_suggestion_soundness snapW sW).1 0 5 0 slotW (by decide) userA (by decide)

/-- C7 is a code bug: for a window whose UTC representation falls on
Monday but whose Nairobi-local reading falls on Tuesday, the code selects
Monday's availability windows (the weekday is taken before the timezone
conversion) and answers false, even though the window is a single local
calendar day and fits inside the person's Tuesday availability window
(the check against the local day's weekday answers true). -/
theorem C7_weekday_taken_before_conversion :
    check_availability_window snapC7 10800 userC7 stC7 enC7 = false ∧
      (stC7.astimezone 10800).dateOf = (enC7.astimezone 10800).dateOf ∧
      is_time_within_availability snapC7 userC7 ((stC7.astimezone 10800).weekday)
        (stC7.astimezone 10800).timeOf ((enC7.astimezone 10800).timeOf) = true ∧
      stC7.weekday ≠ (stC7.astimezone 10800).weekday := by
  refine ⟨by decide, by decide, by decide, by decide⟩

/-- Counterexample to C8: for a window that ends before it starts,
get_all_conflicts does not fail fast; it returns a computed report - here
one that even lists a meeting as conflicting. -/
theorem C8_counterexample_no_fail_fast :
    enC8.abs < stC8.abs ∧
      get_all_conflicts snapC8 0 userA stC8 enC8 none =
        { conflicting_meetings := [meetC8]
          blocked_times := []
          within_availability := true
          has_conflicts := true } := by
  refine ⟨by decide, by decide⟩

/-- C8 amended: the core performs no window validation and no
InvalidWindow condition exists: for end <= start, get_all_conflicts still
returns the computed report, whose conflict lists are exactly the rows
passing the strict overlap filters. -/
theorem C8_amended_no_fail_fast (snap : Snapshot) (tz : Int) (user : User)
    (st en : DT) (ex : Option Nat) (hinv : en.abs ≤ st.abs)
    (m : Meeting) (b : BlockedTime) :
    (m ∈ (get_all_conflicts snap tz user st en ex).conflicting_meetings ↔
      (m ∈ snap.meetings ∧ (m.organizerId = user.id ∨ user.id ∈ m.participantIds) ∧
        m.isDeleted = false ∧
        (m.status = MeetingStatus.scheduled ∨ m.status = MeetingStatus.inProgress) ∧
        m.startTime < en.abs ∧ st.abs < m.endTime ∧
        (match ex with
         | some mid => m.id ≠ mid
         | none => True))) ∧
    (b ∈ (get_all_conflicts snap tz user st en ex).blocked_times ↔
      (b ∈ snap.blockedTimes ∧ b.userId = user.id ∧
        b.startDatetime < en.abs ∧ st.abs < b.endDatetime)) := by
  constructor
  · simp only [get_all_conflicts, check_conflicts, List.mem_filter,
      Bool.and_eq_true, Bool.or_eq_true, beq_iff_eq, decide_eq_true_eq,
      List.elem_iff, and_assoc]
    cases ex <;> simp [and_assoc, gt_iff_lt, bne_iff_ne]
  · simp only [get_all_conflicts, check_blocked_times, List.mem_filter,
      Bool.and_eq_true, beq_iff_eq, decide_eq_true_eq, and_assoc, gt_iff_lt]

/-- Witness for C8 amended: the invalid window stC8-enC8 still reports
meetC8 as a conflicting meeting. -/
theorem C8_amended_no_fail_fast_witness :
    meetC8 ∈ (get_all_conflicts snapC8 0 userA stC8 enC8 none).conflicting_meetings :=
  ((C8_amended_no_fail_fast snapC8 0 userA stC8 enC8 none (by decide)
      meetC8 blockC8).1).mpr (by decide)

/-- Counterexample to C9: with afterInstant at 10:30:45 local (minute
already a multiple of 30, seconds nonzero), no rounding happens and the
returned slot starts 45 seconds past the half-hour boundary. -/
theorem C9_counterexample_seconds_survive :
    find_next_available_slot snapEmpty sC9 afterC9 1 = some slotC9 ∧
      slotC9.start_time.second = 45 := by
  refine ⟨by decide, by decide⟩

/-- C9 amended: the rounding applies only when afterInstant's minute is
not already a multiple of 30 (zeroing seconds and microseconds then);
otherwise seconds survive, and the business-hours snap keeps them too, so
every returned slot starts at a minute that is a multiple of 30 but not
necessarily at zero seconds. -/
theorem C9_amended_minute_multiple_of_30 (snap : Snapshot) (s : SlotSuggester)
    (after : DT) (maxd : Nat) (slot : NextSlot)
    (h : find_next_available_slot snap s after maxd = some slot) :
    slot.start_time.minute % 30 = 0 := by
  unfold find_next_available_slot at h
  exact (findLoop_some snap s _ _ _ _ h).2.2

/-- Witness for C9 amended: the slot returned after afterC9 starts at
minute 30. -/
theorem C9_amended_minute_multiple_of_30_witness :
    slotC9.start_time.minute % 30 = 0 :=
  C9_amended_minute_multiple_of_30 snapEmpty sC9 afterC9 1 slotC9 (by decide)

/-- check_conflicts reads only the user's id. -/
theorem check_conflicts_id (snap : Snapshot) (st en : DT) (ex : Option Nat)
    {u u' : User} (h : u'.id = u.id) :
    check_conflicts snap u' st en ex = check_conflicts snap u st en ex := by
  unfold check_conflicts
  rw [h]

/-- check_blocked_times reads only the user's id. -/
theorem check_blocked_times_id (snap : Snapshot) (st en : DT)
    {u u' : User} (h : u'.id = u.id) :
    check_blocked_times snap u' st en = check_blocked_times snap u st en := by
  unfold check_blocked_times
  rw [h]

/-- The availability query reads only the user's id. -/
theorem liveAvailabilities_id (snap : Snapshot) (dow : Int)
    {u u' : User} (h : u'.id = u.id) :
    liveAvailabilities snap u' dow = liveAvailabilities snap u dow := by
  unfold liveAvailabilities
  rw [h]

/-- _is_time_within_availability reads only the user's id. -/
theorem is_time_within_availability_id (snap : Snapshot) (dow st en : Int)
    {u u' : User} (h : u'.id = u.id) :
    is_time_within_availability snap u' dow st en =
      is_time_within_availability snap u dow st en := by
  unfold is_time_within_availability
  rw [liveAvailabilities_id snap dow h]

/-- _is_day_available reads only the user's id. -/
theorem is_day_available_id (snap : Snapshot) (date : Int) (sdt edt : DT)
    {u u' : User} (h : u'.id = u.id) :
    is_day_available snap u' date sdt edt = is_day_available snap u date sdt edt := by
  unfold is_day_available
  rw [is_time_within_availability_id snap _ _ _ h]

/-- The multi-day loop reads only the user's id. -/
theorem availLoop_id (snap : Snapshot) {u u' : User} (h : u'.id = u.id) :
    ∀ (fuel : Nat) (cd : Int) (ls le : DT),
      availLoop snap u' fuel cd ls le = availLoop snap u fuel cd ls le := by
  intro fuel
  induction fuel with
  | zero => intro cd ls le; rfl
  | succ n ih =>
    intro cd ls le
    rw [availLoop, availLoop, is_day_available_id snap cd ls le h]
    rw [ih]

/-- check_availability_window reads only the user's id. -/
theorem check_availability_window_id (snap : Snapshot) (tz : Int) (st en : DT)
    {u u' : User} (h : u'.id = u.id) :
    check_availability_window snap tz u' st en =
      check_availability_window snap tz u st en := by
  unfold check_availability_window
  dsimp only
  rw [availLoop_id snap h, is_time_within_availability_id snap _ _ _ h]

/-- get_all_conflicts reads only the user's id: the stored timezone
attribute of the user object plays no role. -/
theorem get_all_conflicts_id (snap : Snapshot) (tz : Int) (st en : DT)
    (ex : Option Nat) {u u' : User} (h : u'.id = u.id) :
    get_all_conflicts snap tz u' st en ex = get_all_conflicts snap tz u st en ex := by
  unfold get_all_conflicts
  rw [check_conflicts_id snap st en ex h, check_blocked_times_id snap st en h,
    check_availability_window_id snap tz st en h]

/-- The all-users check is insensitive to any per-user rewrite that keeps
ids (its boolean part). -/
theorem check_slot_for_all_users_fst_map (snap : Snapshot)
    (users : List User) (dm : Nat) (tzv : Int)
    (f : User → User) (hf : ∀ u, (f u).id = u.id) (st en : DT) :
    (check_slot_for_all_users snap ⟨users.map f, dm, tzv⟩ st en).1 =
      (check_slot_for_all_users snap ⟨users, dm, tzv⟩ st en).1 := by
  simp only [check_slot_for_all_users, List.filter_map, List.length_map]
  have hcong :
      List.filter ((fun user =>
          (get_all_conflicts snap tzv user st en none).has_conflicts ||
          !(get_all_conflicts snap tzv user st en none).within_availability) ∘ f) users =
        List.filter (fun user =>
          (get_all_conflicts snap tzv user st en none).has_conflicts ||
          !(get_all_conflicts snap tzv user st en none).within_availability) users := by
    apply List.filter_congr
    intro u _
    simp only [Function.comp]
    rw [get_all_conflicts_id snap tzv st en none (hf u)]
  rw [hcong]

/-- The slot-generation loop is insensitive to id-preserving user rewrites. -/
theorem slotLoop_map (snap : Snapshot) (users : List User) (dm : Nat) (tzv : Int)
    (f : User → User) (hf : ∀ u, (f u).id = u.id) (date : Int) :
    ∀ (fuel : Nat) (ct en : DT) (acc : List SuggestedSlot),
      slotLoop snap ⟨users.map f, dm, tzv⟩ date fuel ct en acc =
        slotLoop snap ⟨users, dm, tzv⟩ date fuel ct en acc := by
  intro fuel
  induction fuel with
  | zero => intro ct en acc; rfl
  | succ n ih =>
    intro ct en acc
    rw [slotLoop, slotLoop]
    simp only [SlotSuggester.duration]
    rw [check_slot_for_all_users_fst_map snap users dm tzv f hf]
    split
    · rw [ih]
    · rfl

/-- _get_available_slots_for_day is insensitive to id-preserving user
rewrites. -/
theorem get_available_slots_for_day_map (snap : Snapshot) (users : List User)
    (dm : Nat) (tzv : Int) (f : User → User) (hf : ∀ u, (f u).id = u.id)
    (date : Int) :
    get_available_slots_for_day snap ⟨users.map f, dm, tzv⟩ date =
      get_available_slots_for_day snap ⟨users, dm, tzv⟩ date := by
  unfold get_available_slots_for_day
  exact slotLoop_map snap users dm tzv f hf date 21 _ _ []

/-- The date-scanning loop is insensitive to id-preserving user rewrites. -/
theorem suggestLoop_map (snap : Snapshot) (users : List User) (dm : Nat)
    (tzv : Int) (f : User → User) (hf : ∀ u, (f u).id = u.id)
    (end_date : Int) (num : Nat) :
    ∀ (fuel : Nat) (cd : Int) (acc : List SuggestedSlot),
      suggestLoop snap ⟨users.map f, dm, tzv⟩ end_date num fuel cd acc =
        suggestLoop snap ⟨users, dm, tzv⟩ end_date num fuel cd acc := by
  intro fuel
  induction fuel with
  | zero => intro cd acc; rfl
  | succ n ih =>
    intro cd acc
    rw [suggestLoop, suggestLoop]
    rw [get_available_slots_for_day_map snap users dm tzv f hf]
    split
    · rw [ih]
    · rfl

/-- The next-slot loop is insensitive to id-preserving user rewrites. -/
theorem findLoop_map (snap : Snapshot) (users : List User) (dm : Nat)
    (tzv : Int) (f : User → User) (hf : ∀ u, (f u).id = u.id)
    (end_search : Int) :
    ∀ (fuel : Nat) (ct : DT),
      findLoop snap ⟨users.map f, dm, tzv⟩ end_search fuel ct =
        findLoop snap ⟨users, dm, tzv⟩ end_search fuel ct := by
  intro fuel
  induction fuel with
  | zero => intro ct; rfl
  | succ n ih =>
    intro ct
    rw [findLoop, findLoop]
    simp only [SlotSuggester.duration,
      check_slot_for_all_users_fst_map snap users dm tzv f hf, ih]

/-- C10: slot suggestion and next-slot search evaluate every person with
the single timezone the SlotSuggester was constructed with, never the
person's stored timezone attribute: rewriting every user's timezone field
(keeping id and name) changes neither suggest_slots nor
find_next_available_slot. -/
theorem C10_suggester_ignores_user_timezones (snap : Snapshot)
    (users : List User) (g : Nat → Int) (dm : Nat) (tzv : Int)
    (pd : Int) (num days : Nat) (after : DT) (maxd : Nat) :
    suggest_slots snap ⟨users.map (fun u => ⟨u.id, g u.id, u.fullName⟩), dm, tzv⟩
        pd num days =
      suggest_slots snap ⟨users, dm, tzv⟩ pd num days ∧
    find_next_available_slot snap
        ⟨users.map (fun u => ⟨u.id, g u.id, u.fullName⟩), dm, tzv⟩ after maxd =
      find_next_available_slot snap ⟨users, dm, tzv⟩ after maxd := by
  constructor
  · unfold suggest_slots
    rw [suggestLoop_map snap users dm tzv
      (fun u => ⟨u.id, g u.id, u.fullName⟩) (fun u => rfl)]
  · unfold find_next_available_slot
    rw [findLoop_map snap users dm tzv
      (fun u => ⟨u.id, g u.id, u.fullName⟩) (fun u => rfl)]

end MeetingTool
